import Mathlib

/-!
Shallow embedding of parts of the terraform-provider-equinix repository:
the provider configuration loader and Metal retry policy (package config),
the hardware-reservation provisionability poller (package equinix, modelled
from the specification since only its test is present in the sources),
the Fabric schema mapping helpers (package equinix), and the Metal project
SSH key resource (package project_ssh_key).

Go strings are modelled as Lean strings; Go errors and nil-able values as
Option / Except; per-vendor API clients as records of the fields the code
sets.  External effects (environment variables, the oauth token exchange,
HTTP calls) are passed in explicitly as inputs.
-/

/-! ## Go string helpers used by the config package -/

/-- Character-list form of Go strings.TrimSpace: drop whitespace from both
ends (Char.isWhitespace stands in for unicode.IsSpace). -/
def goTrimList (l : List Char) : List Char :=
  ((l.dropWhile Char.isWhitespace).reverse.dropWhile Char.isWhitespace).reverse

/-- Translation of Go strings.TrimSpace. -/
def goTrimSpace (s : String) : String :=
  ⟨goTrimList s.data⟩

/-- Translation of matching the anchored regular expression
stopped after \d+ redirects\z (config variable redirectsErrorRe) against a
whole error string: some suffix of the string is
"stopped after " ++ one-or-more digits ++ " redirects", ending at the end
of the string.  Maximal-munch on the digit run is equivalent here because
the character before the digits in the pattern is a space. -/
def redirectsErrorMatch (s : String) : Bool :=
  let r := s.data.reverse
  let sfx := (" redirects").data.reverse
  sfx.isPrefixOf r &&
    (let rest := r.drop sfx.length
     let ds := rest.takeWhile Char.isDigit
     !ds.isEmpty && (("stopped after ").data.reverse.isPrefixOf (rest.drop ds.length)))

/-! ## Metal retry policy (config.MetalRetryPolicy) -/

/-- Result of Go context.Context.Err(): nil, context.Canceled, or
context.DeadlineExceeded. -/
inductive CtxErr where
  | canceled
  | deadlineExceeded
deriving DecidableEq

/-- The slice of an http.Response the embedded code inspects. -/
structure HttpResponse where
  statusCode : Nat
deriving DecidableEq

/-- A transport error as classified by MetalRetryPolicy: either a url.Error
(carrying its Error() string and whether its wrapped Err is an
x509.UnknownAuthorityError) or any other non-nil error. -/
inductive GoNetError where
  | urlError (errString : String) (unknownAuthority : Bool)
  | other (errString : String)
deriving DecidableEq

/-- Translation of config.MetalRetryPolicy.  The context error is checked
first; then url.Error values are tested for the redirect-limit message and
for a certificate-trust (unknown authority) failure; any other error is
retried; no error means no retry. -/
def MetalRetryPolicy (ctxErr : Option CtxErr) (resp : Option HttpResponse)
    (err : Option GoNetError) : Bool × Option CtxErr :=
  match ctxErr with
  | some e => (false, some e)
  | none =>
    match err with
    | some e =>
      match e with
      | .urlError s unknownAuthority =>
        if redirectsErrorMatch s then (false, none)
        else if unknownAuthority then (false, none)
        else (true, none)
      | .other _ => (true, none)
    | none => (false, none)

/-! ## User-agent composition (config package) -/

/-- Translation of config.terraformUserAgent.  The environment variable
TF_APPEND_USER_AGENT is passed in as envAppend, the plugin SDK version
string as sdkVersion. -/
def terraformUserAgent (version sdkVersion envAppend : String) : String :=
  let ua := "HashiCorp Terraform/" ++ version ++
    " (+https://www.terraform.io) Terraform Plugin SDK/" ++ sdkVersion
  if envAppend = "" then ua
  else
    let add := goTrimSpace envAppend
    if 0 < add.data.length then ua ++ " " ++ add else ua

/-- Translation of Config.fullUserAgent, with the values it reads from the
process (provider version, SDK version, environment) passed explicitly. -/
def fullUserAgent (terraformVersion sdkVersion envAppend providerVersion suffix : String) :
    String :=
  goTrimSpace (terraformUserAgent terraformVersion sdkVersion envAppend ++
    " terraform-provider-equinix/" ++ providerVersion ++ " " ++ suffix)

/-- config.ProviderMeta: the per-request provider metadata. -/
structure ProviderMeta where
  ModuleName : String
deriving DecidableEq

/-- Translation of config.generateFwModuleUserAgentString.  meta.Get is
modelled by its outcome: an error diagnostic set, or the decoded
ProviderMeta. -/
def generateFwModuleUserAgentString (metaGet : Except Unit ProviderMeta)
    (baseUserAgent : String) : String :=
  match metaGet with
  | .error _ => baseUserAgent
  | .ok m =>
    if m.ModuleName ≠ "" then m.ModuleName ++ " " ++ baseUserAgent
    else baseUserAgent

/-! ## Configuration loading (Config.Load) -/

/-- The consumerToken constant of the config package. -/
def consumerToken : String :=
  "aZ9GmqHTPtxevvFq9SK3Pi2yr9YCbRzduCSXF2SNem5sjB91mDq7Th3ZwTtRqMWZ"

/-- The emptyCredentialsError constant of the config package. -/
def emptyCredentialsError : String :=
  "the provider needs to be configured with the proper credentials before it\ncan be used.\n\nOne of pair \"client_id\" - \"client_secret\" or \"token\" must be set in the provider\nconfiguration to interact with Equinix Fabric and Network Edge services, and\n\"auth_token\" to interact with Equinix Metal. These can also be configured using\nenvironment variables.\n\nPlease note that while the authentication arguments are individually optional to allow\ninteraction with the different services independently, trying to provision the resources\nof a service without the required credentials will return an API error referring to\n\x27Invalid authentication token\x27 or \x27error when acquiring token\x27.\n\nMore information on the provider configuration can be found here:\nhttps://registry.terraform.io/providers/equinix/equinix/latest/docs"

/-- The distinct failures Config.Load can return. -/
inductive LoadError where
  | baseURLEmpty
  | emptyCredentials
  | tokenExchangeFailed (msg : String)
deriving DecidableEq

/-- The error message carried by each Config.Load failure. -/
def LoadError.message : LoadError → String
  | .baseURLEmpty => "\x27baseURL\x27 cannot be empty"
  | .emptyCredentials => emptyCredentialsError
  | .tokenExchangeFailed m => m

/-- ecx.Client as configured by Load (base URL, optional page size,
User-agent header).  URL parsing and path joining are not modelled; clients
record the configured base URL. -/
structure EcxClient where
  baseURL : String
  pageSize : Option Int
  userAgent : String
deriving DecidableEq

/-- ne.Client as configured by Load. -/
structure NeClient where
  baseURL : String
  pageSize : Option Int
  userAgent : String
deriving DecidableEq

/-- packngo.Client as configured by NewMetalClient. -/
structure PackngoClient where
  consumerToken : String
  authToken : String
  baseURL : String
  userAgent : String
deriving DecidableEq

/-- metalv1.APIClient as configured by NewMetalGoClient. -/
structure MetalgoApiClient where
  baseURL : String
  authToken : String
  userAgent : String
deriving DecidableEq

/-- v4.APIClient (Fabric) as configured by NewFabricClient. -/
structure FabricApiClient where
  basePath : String
  userAgent : String
  correlationId : String
deriving DecidableEq

/-- The Config structure of the config package (the fields the embedded
code reads or writes). -/
structure Config where
  BaseURL : String := ""
  AuthToken : String := ""
  ClientID : String := ""
  ClientSecret : String := ""
  MaxRetries : Int := 0
  MaxRetryWait : Nat := 0
  RequestTimeout : Nat := 0
  PageSize : Int := 0
  Token : String := ""
  Ecx : Option EcxClient := none
  Ne : Option NeClient := none
  Metal : Option PackngoClient := none
  Metalgo : Option MetalgoApiClient := none
  ecxUserAgent : String := ""
  neUserAgent : String := ""
  metalUserAgent : String := ""
  metalGoUserAgent : String := ""
  TerraformVersion : String := ""
  FabricClient : Option FabricApiClient := none
  FabricAuthToken : String := ""
deriving DecidableEq

instance {ε α : Type} [DecidableEq ε] [DecidableEq α] : DecidableEq (Except ε α) := fun x y =>
  match x, y with
  | .ok a, .ok b =>
    decidable_of_iff (a = b)
      ⟨fun h => by rw [h], fun h => by injection h⟩
  | .error a, .error b =>
    decidable_of_iff (a = b)
      ⟨fun h => by rw [h], fun h => by injection h⟩
  | .ok _, .error _ => isFalse (fun h => Except.noConfusion h)
  | .error _, .ok _ => isFalse (fun h => Except.noConfusion h)

/-- The process-level inputs Load consumes: the outcome of the oauth2
client-credentials token exchange, environment and version strings, the
default user agents of the wrapped SDK clients, and the generated
correlation id. -/
structure LoadEnv where
  tokenExchange : Except String String := .ok ""
  envAppendUA : String := ""
  sdkVersion : String := ""
  providerVersion : String := ""
  packngoDefaultUA : String := ""
  metalgoDefaultUA : String := ""
  correlationId : String := ""
deriving DecidableEq

/-- The token exchange performed inside Load: only on the path where the
static Token is empty and both ClientID and ClientSecret are set does Load
call TokenSource(...).Token(); otherwise the FabricAuthToken field is left
as is at this point. -/
def Config.fabricTokenExchange (c : Config) (env : LoadEnv) : Except String String :=
  if c.Token = "" ∧ c.ClientID ≠ "" ∧ c.ClientSecret ≠ "" then env.tokenExchange
  else .ok c.FabricAuthToken

/-- Translation of Config.NewMetalClient (retry/transport wiring and URL
path joining are not modelled; the client records the fields set from the
configuration). -/
def Config.NewMetalClient (c : Config) (env : LoadEnv) : PackngoClient :=
  { consumerToken := consumerToken
    authToken := c.AuthToken
    baseURL := c.BaseURL
    userAgent := fullUserAgent c.TerraformVersion env.sdkVersion env.envAppendUA
      env.providerVersion env.packngoDefaultUA }

/-- Translation of Config.NewMetalGoClient. -/
def Config.NewMetalGoClient (c : Config) (env : LoadEnv) : MetalgoApiClient :=
  { baseURL := c.BaseURL
    authToken := c.AuthToken
    userAgent := fullUserAgent c.TerraformVersion env.sdkVersion env.envAppendUA
      env.providerVersion env.metalgoDefaultUA }

/-- Translation of Config.NewFabricClient. -/
def Config.NewFabricClient (c : Config) (env : LoadEnv) : FabricApiClient :=
  { basePath := c.BaseURL
    userAgent := "equinix/fabric-go"
    correlationId := env.correlationId }

/-- Translation of Config.Load: validate the base URL, require at least one
credential form, perform the token exchange on the client-id/secret path,
default the Fabric auth token to the static token, and construct every
per-vendor client.  Both the ecx and the ne user agents are built with the
"equinix/ecx-go" suffix, as in the source. -/
def Config.Load (c : Config) (env : LoadEnv) : Except LoadError Config :=
  if c.BaseURL = "" then .error .baseURLEmpty
  else if c.Token = "" ∧ (c.ClientID = "" ∨ c.ClientSecret = "") ∧ c.AuthToken = "" then
    .error .emptyCredentials
  else
    match c.fabricTokenExchange env with
    | .error e => .error (.tokenExchangeFailed e)
    | .ok tk =>
      let fabricTok := if tk = "" then c.Token else tk
      let ecxUA := fullUserAgent c.TerraformVersion env.sdkVersion env.envAppendUA
        env.providerVersion "equinix/ecx-go"
      let neUA := fullUserAgent c.TerraformVersion env.sdkVersion env.envAppendUA
        env.providerVersion "equinix/ecx-go"
      let pageSize := if 0 < c.PageSize then some c.PageSize else none
      let metal := c.NewMetalClient env
      let metalgo := c.NewMetalGoClient env
      let fabric := c.NewFabricClient env
      .ok { c with
        FabricAuthToken := fabricTok
        ecxUserAgent := ecxUA
        neUserAgent := neUA
        metalUserAgent := metal.userAgent
        metalGoUserAgent := metalgo.userAgent
        Ecx := some { baseURL := c.BaseURL, pageSize := pageSize, userAgent := ecxUA }
        Ne := some { baseURL := c.BaseURL, pageSize := pageSize, userAgent := neUA }
        Metal := some metal
        Metalgo := some metalgo
        FabricClient := some fabric }

/-- Whether a Load outcome succeeded with every per-vendor client handle
populated (Ecx, Ne, Metal, Metalgo, FabricClient). -/
def populatedClients (r : Except LoadError Config) : Bool :=
  match r with
  | .error _ => false
  | .ok c =>
    c.Ecx.isSome && c.Ne.isSome && c.Metal.isSome && c.Metalgo.isSome &&
      c.FabricClient.isSome

/-! ## Hardware-reservation provisionability poller

The function waitUntilReservationProvisionable and its refresh helper are
not among the sources; only their test (Test_waitUntilReservationProvisionable)
is.  They are modelled from the specification below, with the per-tick
outcomes pinned by that test where the two disagree: the test's
"reprovisioned" case (second poll reports a different, non-empty device id
with the condition still false) expects the call to return success at that
poll ("should return success"), so an instance-id change is a terminal
success state rather than a mere reset-and-continue.  Time is discretised:
one fuel unit per polling interval, so a 1s deadline with a 50ms interval
is 20 ticks. -/

/-- One observation of the hardware reservation: the id of the attached
device (none when no device is included in the response) and the
provisionable flag. -/
structure Observation where
  deviceId : Option String
  provisionable : Bool
deriving DecidableEq

/-- The per-tick classification of a reservation observation. -/
inductive ReservationState where
  | provisionable
  | reprovisioned
  | deprovisioning
  | errored (msg : String)
deriving DecidableEq

/-- Modelled from the spec: the status-refresh classification used by the
absent waitUntilReservationProvisionable.  A fetch error is terminal; a
non-empty device id different from the tracked instance id means the
reservation was reprovisioned; a true provisionable flag means the target
condition holds; otherwise the reservation is still deprovisioning. -/
def hwReservationStateRefresh (instanceId : String)
    (fetched : Except String Observation) : ReservationState :=
  match fetched with
  | .error e => .errored e
  | .ok r =>
    match r.deviceId with
    | some did =>
      if did ≠ "" ∧ did ≠ instanceId then .reprovisioned
      else if r.provisionable then .provisionable
      else .deprovisioning
    | none => if r.provisionable then .provisionable else .deprovisioning

/-- Failures of the poller: a fetch error surfaced as is, or a deadline
expiry naming the reservation id and the last observed state. -/
inductive PollError where
  | apiError (msg : String)
  | timeout (reservationId : String) (lastState : ReservationState)
deriving DecidableEq

/-- Modelled from the spec: the polling loop of
waitUntilReservationProvisionable.  fetch t is the observation returned by
the vendor API at tick t; fuel is the number of polling intervals left
before the deadline.  Returns the outcome together with the number of
fetches performed.  provisionable and reprovisioned are terminal successes,
an errored fetch is a terminal failure, deprovisioning polls on, and
exhausted fuel is a timeout naming the reservation and the last state. -/
def runPoll (fetch : Nat → Except String Observation)
    (reservationId instanceId : String) :
    Nat → Nat → ReservationState → Except PollError Unit × Nat
  | 0, tick, last => (.error (.timeout reservationId last), tick)
  | fuel + 1, tick, _ =>
    match hwReservationStateRefresh instanceId (fetch tick) with
    | .provisionable => (.ok (), tick + 1)
    | .reprovisioned => (.ok (), tick + 1)
    | .errored e => (.error (.apiError e), tick + 1)
    | .deprovisioning =>
      runPoll fetch reservationId instanceId fuel (tick + 1) .deprovisioning

/-- Modelled from the spec: waitUntilReservationProvisionable with a
discrete deadline of maxTicks polling intervals. -/
def waitUntilReservationProvisionable (fetch : Nat → Except String Observation)
    (reservationId instanceId : String) (maxTicks : Nat) : Except PollError Unit :=
  (runPoll fetch reservationId instanceId maxTicks 0 .deprovisioning).1

/-! ## Metal project SSH key resource (package project_ssh_key) -/

/-- Severity of a host-framework diagnostic. -/
inductive Severity where
  | error
  | warning
deriving DecidableEq

/-- A host-framework diagnostic (AddError / AddWarning). -/
structure Diagnostic where
  severity : Severity
  summary : String
  detail : String
deriving DecidableEq

/-- A vendor API error after equinix_errors.FriendlyError, as the resource
code consumes it: its message and whether equinix_errors.IsNotFound
classifies it as a not-found error. -/
structure ApiError where
  notFound : Bool
  message : String
deriving DecidableEq

/-- The Terraform model of a project SSH key (the fields the embedded code
reads). -/
structure SSHKeyModel where
  id : String
  name : String
  publicKey : String
deriving DecidableEq

/-- Outcome of Resource.Read: the diagnostics reported, whether the
resource was removed from local state, and the state written back. -/
structure ReadResult where
  diagnostics : List Diagnostic
  stateRemoved : Bool
  stateSet : Option SSHKeyModel
deriving DecidableEq

/-- Whether a diagnostic list contains an error-severity diagnostic
(Diagnostics.HasError). -/
def diagnosticsHasError (l : List Diagnostic) : Bool :=
  l.any fun d => d.severity == Severity.error

/-- Translation of project_ssh_key Resource.Read.  stateGet is the outcome
of req.State.Get, find the FindSSHKeyById call, and parse the model's parse
method (given the fetched key, or none for the nil key left behind by a
failed call), returning the updated state and its diagnostics.  On a
not-found API error the resource is removed from state with only a
warning; on any other API error an error diagnostic is added and — since
the code does not return there — parse still runs on the nil key, after
which HasError stops the state from being written. -/
def Resource.Read (stateGet : Except Diagnostic SSHKeyModel)
    (find : String → Except ApiError SSHKeyModel)
    (parse : Option SSHKeyModel → SSHKeyModel × List Diagnostic) : ReadResult :=
  match stateGet with
  | .error d => { diagnostics := [d], stateRemoved := false, stateSet := none }
  | .ok state =>
    let id := state.id
    match find id with
    | .error e =>
      if e.notFound then
        { diagnostics := [⟨.warning, "Equinix Metal Project SSHKey not found during refresh",
            "[WARN] SSHKey (" ++ id ++ ") not found, removing from state"⟩]
          stateRemoved := true
          stateSet := none }
      else
        let errDiag : Diagnostic :=
          ⟨.error, "Failed to get Project SSHKey " ++ id, e.message⟩
        let parsed := parse none
        { diagnostics := errDiag :: parsed.2, stateRemoved := false, stateSet := none }
    | .ok key =>
      let parsed := parse (some key)
      if diagnosticsHasError parsed.2 then
        { diagnostics := parsed.2, stateRemoved := false, stateSet := none }
      else
        { diagnostics := parsed.2, stateRemoved := false, stateSet := some parsed.1 }

/-- Modelled from the spec: equinix_errors.HttpForbidden, absent from the
sources together with the rest of internal/errors; per its name and the
specification's error taxonomy it holds when the HTTP response carries
status 403. -/
def HttpForbidden (resp : Option HttpResponse) (err : Option ApiError) : Bool :=
  match resp with
  | some r => r.statusCode == 403
  | none => false

/-- Modelled from the spec: equinix_errors.HttpNotFound — the response
carries status 404. -/
def HttpNotFound (resp : Option HttpResponse) (err : Option ApiError) : Bool :=
  match resp with
  | some r => r.statusCode == 404
  | none => false

/-- Modelled from the spec: equinix_errors.IgnoreHttpResponseErrors, absent
from the sources; it mutes the error when any of the given predicates
accepts the response/error pair, and passes the error through otherwise. -/
def IgnoreHttpResponseErrors
    (ignored : List (Option HttpResponse → Option ApiError → Bool))
    (resp : Option HttpResponse) (err : Option ApiError) : Option ApiError :=
  if ignored.any fun p => p resp err then none else err

/-- Outcome of Resource.Delete: the diagnostics reported. -/
structure DeleteResult where
  diagnostics : List Diagnostic
deriving DecidableEq

/-- Translation of project_ssh_key Resource.Delete.  deleteCall is the
DeleteSSHKey call, returning the HTTP response and error.  Errors accepted
by HttpForbidden or HttpNotFound are ignored; any remaining error is
surfaced as an error diagnostic naming the key id. -/
def Resource.Delete (stateGet : Except Diagnostic SSHKeyModel)
    (deleteCall : String → Option HttpResponse × Option ApiError) : DeleteResult :=
  match stateGet with
  | .error d => { diagnostics := [d] }
  | .ok state =>
    let id := state.id
    let r := deleteCall id
    match IgnoreHttpResponseErrors [HttpForbidden, HttpNotFound] r.1 r.2 with
    | none => { diagnostics := [] }
    | some e =>
      { diagnostics := [⟨.error, "Failed to delete Project SSHKey " ++ id, e.message⟩] }

/-! ## Fabric schema mapping helpers (package equinix) -/

/-- One element of the service_token configuration list: its "type" and
"uuid" entries. -/
structure ServiceTokenInput where
  stType : String
  uuid : String
deriving DecidableEq

/-- v4.ServiceToken as built by serviceTokenToFabric: the Uuid field and
the optional Type_ pointer. -/
structure ServiceToken where
  Uuid : String
  Type_ : Option String
deriving DecidableEq

/-- The loop body of serviceTokenToFabric: mappedST starts as the empty
service token and is overwritten by each element; a non-empty type other
than VC_TOKEN aborts with an error. -/
def serviceTokenToFabricLoop (mappedST : ServiceToken) :
    List ServiceTokenInput → Except String ServiceToken
  | [] => .ok mappedST
  | st :: rest =>
    if st.stType ≠ "" then
      if st.stType ≠ "VC_TOKEN" then
        .error ("invalid service token type in config. Must be: VC_TOKEN; Received: "
          ++ st.stType)
      else serviceTokenToFabricLoop { Uuid := st.uuid, Type_ := some st.stType } rest
    else serviceTokenToFabricLoop { Uuid := st.uuid, Type_ := none } rest

/-- Translation of serviceTokenToFabric. -/
def serviceTokenToFabric (serviceTokenRequest : List ServiceTokenInput) :
    Except String ServiceToken :=
  serviceTokenToFabricLoop { Uuid := "", Type_ := none } serviceTokenRequest

/-- The service token one loop iteration of serviceTokenToFabric builds
from one input element. -/
def stConv (st : ServiceTokenInput) : ServiceToken :=
  { Uuid := st.uuid, Type_ := if st.stType = "" then none else some st.stType }

/-- The service token corresponding to the last element of the list, or
the empty service token for an empty list. -/
def lastServiceToken (l : List ServiceTokenInput) : ServiceToken :=
  match l.getLast? with
  | none => { Uuid := "", Type_ := none }
  | some st => stConv st

/-- Translation of supportedBandwidthsToTerra.  A Go []interface{} entry is
modelled as Option Int, none being the nil interface value left by
make([]interface{}, n); the loop then appends the converted values after
the pre-allocated slots. -/
def supportedBandwidthsToTerra (supportedBandwidths : Option (List Int)) :
    Option (List (Option Int)) :=
  match supportedBandwidths with
  | none => none
  | some bws =>
    some (bws.foldl (fun acc bandwidth => acc ++ [some bandwidth])
      (List.replicate bws.length none))

/-! ## Concrete inputs used to evaluate the embedded code -/

/-- Whether an Except value is a success. -/
def exceptIsOk {ε α : Type} : Except ε α → Bool
  | .ok _ => true
  | .error _ => false

/-- A configuration with no credentials and an empty base URL. -/
def noCredsEmptyBaseConfig : Config := {}

/-- A Load environment with every external input at its default. -/
def defaultLoadEnv : LoadEnv := {}

/-- A configuration with only the static token set and a non-empty base
URL. -/
def staticTokenConfig : Config :=
  { BaseURL := "https://api.equinix.com", Token := "someToken" }

/-- Status sequence of the claims about the poller: first poll reports
status=false with id="A", every later poll status=false with id="B". -/
def fetchChangedId : Nat → Except String Observation := fun t =>
  if t = 0 then .ok { deviceId := some "A", provisionable := false }
  else .ok { deviceId := some "B", provisionable := false }

/-- The "reprovisioned" sequence of Test_waitUntilReservationProvisionable:
the device id changes from "instanceId" to "new instance id" while the
provisionable flag stays false. -/
def fetchReprovisionedTest : Nat → Except String Observation := fun t =>
  if t = 0 then .ok { deviceId := some "instanceId", provisionable := false }
  else .ok { deviceId := some "new instance id", provisionable := false }

/-- The status sequence [false(id=X), false(id=Y)] repeated, as in the
claim about the poller deadline. -/
def fetchAlternatingIds : Nat → Except String Observation := fun t =>
  .ok { deviceId := some (if t % 2 = 0 then "X" else "Y"), provisionable := false }

/-- The "foreverDeprovisioning" sequence of
Test_waitUntilReservationProvisionable: no device and a false
provisionable flag at every poll. -/
def fetchNoDevice : Nat → Except String Observation := fun _ =>
  .ok { deviceId := none, provisionable := false }

/-- The "provisionable" sequence of Test_waitUntilReservationProvisionable:
status=false with the tracked instance id, then status=true with no device
id. -/
def fetchProvisionableTest : Nat → Except String Observation := fun t =>
  if t = 0 then .ok { deviceId := some "instanceId", provisionable := false }
  else .ok { deviceId := none, provisionable := true }

/-- A status sequence whose very first observation is provisionable. -/
def fetchTrueNow : Nat → Except String Observation := fun _ =>
  .ok { deviceId := none, provisionable := true }

/-- A concrete SSH key state. -/
def sshKey0 : SSHKeyModel := { id := "keyid-1", name := "k", publicKey := "pk" }

/-- A FindSSHKeyById stub failing with a not-found error. -/
def findNotFound : String → Except ApiError SSHKeyModel := fun _ =>
  .error { notFound := true, message := "Error 404 not found" }

/-- A FindSSHKeyById stub failing with a non-not-found error. -/
def findServerError : String → Except ApiError SSHKeyModel := fun _ =>
  .error { notFound := false, message := "Error 500 internal error" }

/-- A parse stub producing no diagnostics. -/
def parseTrivial : Option SSHKeyModel → SSHKeyModel × List Diagnostic := fun k =>
  (k.getD { id := "", name := "", publicKey := "" }, [])

/-- A DeleteSSHKey stub failing with HTTP 403. -/
def deleteCall403 : String → Option HttpResponse × Option ApiError := fun _ =>
  (some { statusCode := 403 }, some { notFound := false, message := "forbidden" })

/-- A DeleteSSHKey stub failing with HTTP 404. -/
def deleteCall404 : String → Option HttpResponse × Option ApiError := fun _ =>
  (some { statusCode := 404 }, some { notFound := true, message := "not found" })

/-- A DeleteSSHKey stub failing with HTTP 500. -/
def deleteCall500 : String → Option HttpResponse × Option ApiError := fun _ =>
  (some { statusCode := 500 }, some { notFound := false, message := "server error" })

/-- A service token list whose elements all carry an empty or VC_TOKEN
type. -/
def stlGood : List ServiceTokenInput :=
  [{ stType := "", uuid := "uuid-1" }, { stType := "VC_TOKEN", uuid := "uuid-2" }]

/-- A service token list containing an element with an invalid type. -/
def stlBad : List ServiceTokenInput :=
  [{ stType := "", uuid := "uuid-1" }, { stType := "MC_TOKEN", uuid := "uuid-2" }]

/-! ## Helper lemmas -/

theorem string_data_append (s t : String) : (s ++ t).data = s.data ++ t.data := rfl

theorem goTrimList_eq_self (l : List Char)
    (h1 : ∀ c, l.head? = some c → c.isWhitespace = false)
    (h2 : ∀ c, l.getLast? = some c → c.isWhitespace = false) :
    goTrimList l = l := by
  unfold goTrimList
  have hd : l.dropWhile Char.isWhitespace = l := by
    cases l with
    | nil => rfl
    | cons a t => rw [List.dropWhile_cons, h1 a rfl]; simp
  rw [hd]
  have hrev : l.reverse.dropWhile Char.isWhitespace = l.reverse := by
    cases hr : l.reverse with
    | nil => rfl
    | cons a t =>
      have hga : l.getLast? = some a := by rw [← List.head?_reverse, hr]; rfl
      rw [List.dropWhile_cons, h2 a hga]
      simp
  rw [hrev, List.reverse_reverse]

theorem terraformUserAgent_head (v sv e : String) :
    (terraformUserAgent v sv e).data.head? = some 'H' := by
  have hlit : ("HashiCorp Terraform/").data = 'H' :: ("ashiCorp Terraform/").data := rfl
  simp only [terraformUserAgent]
  split
  · simp [string_data_append, hlit]
  · split <;> simp [string_data_append, hlit]

/-! ## C1: Metal retry policy -/

/-- C1: for every context, response and transport error given to
MetalRetryPolicy, a cancelled or expired context yields (false, the
context error) regardless of the error, taking precedence over all
error classification; with a live context, no error yields (false, nil), a
redirect-limit url.Error yields (false, nil), a certificate-trust
(unknown authority) url.Error yields (false, nil), and any other non-nil
error — a non-matching url.Error or any other error value — yields
(true, nil). -/
theorem metalRetryPolicy_classification (ctxErr : Option CtxErr)
    (resp : Option HttpResponse) (err : Option GoNetError) :
    (∀ e, ctxErr = some e → MetalRetryPolicy ctxErr resp err = (false, some e)) ∧
    (ctxErr = none → err = none → MetalRetryPolicy ctxErr resp err = (false, none)) ∧
    (∀ s b, ctxErr = none → err = some (.urlError s b) → redirectsErrorMatch s = true →
      MetalRetryPolicy ctxErr resp err = (false, none)) ∧
    (∀ s, ctxErr = none → err = some (.urlError s true) →
      MetalRetryPolicy ctxErr resp err = (false, none)) ∧
    (∀ s, ctxErr = none → err = some (.urlError s false) → redirectsErrorMatch s = false →
      MetalRetryPolicy ctxErr resp err = (true, none)) ∧
    (∀ s, ctxErr = none → err = some (.other s) →
      MetalRetryPolicy ctxErr resp err = (true, none)) := by
  refine ⟨?_, ?_, ?_, ?_, ?_, ?_⟩
  · intro e he; subst he; rfl
  · intro h1 h2; subst h1; subst h2; rfl
  · intro s b h1 h2 h3; subst h1; subst h2; simp [MetalRetryPolicy, h3]
  · intro s h1 h2; subst h1; subst h2
    cases hm : redirectsErrorMatch s <;> simp [MetalRetryPolicy, hm]
  · intro s h1 h2 h3; subst h1; subst h2; simp [MetalRetryPolicy, h3]
  · intro s h1 h2; subst h1; subst h2; rfl

/-- Witness for C1: the classification evaluated on concrete inputs of
each kind. -/
theorem metalRetryPolicy_classification_witness :
    MetalRetryPolicy (some .canceled) none (some (.other "x")) = (false, some .canceled) ∧
    MetalRetryPolicy none none none = (false, none) ∧
    MetalRetryPolicy none none
      (some (.urlError "Get u: stopped after 10 redirects" false)) = (false, none) ∧
    MetalRetryPolicy none none
      (some (.urlError "x509 unknown authority" true)) = (false, none) ∧
    MetalRetryPolicy none none (some (.urlError "connection reset" false)) = (true, none) ∧
    MetalRetryPolicy none none (some (.other "generic failure")) = (true, none) := by
  refine ⟨?_, ?_, ?_, ?_, ?_, ?_⟩
  · exact (metalRetryPolicy_classification (some .canceled) none
      (some (.other "x"))).1 .canceled rfl
  · exact (metalRetryPolicy_classification none none none).2.1 rfl rfl
  · exact (metalRetryPolicy_classification none none
      (some (.urlError "Get u: stopped after 10 redirects" false))).2.2.1 _ false rfl rfl
      (by decide)
  · exact (metalRetryPolicy_classification none none
      (some (.urlError "x509 unknown authority" true))).2.2.2.1 _ rfl rfl
  · exact (metalRetryPolicy_classification none none
      (some (.urlError "connection reset" false))).2.2.2.2.1 _ rfl rfl (by decide)
  · exact (metalRetryPolicy_classification none none
      (some (.other "generic failure"))).2.2.2.2.2 _ rfl rfl

/-! ## C7: user-agent composition -/

/-- C7: for a suffix that is non-empty and does not end in whitespace, the
full user agent is the single-space-separated concatenation of the
host-framework/SDK identity string and the provider product version with
the vendor-SDK suffix; the identity string itself is the host-framework
identity and the SDK identity separated by a single space; and the
per-request module name is prepended exactly when metadata retrieval
succeeds with a non-empty module name, the base string being returned
unchanged when the module name is empty or retrieval fails. -/
theorem full_user_agent_composition
    (terraformVersion sdkVersion envAppend providerVersion suffix : String)
    (metaGet : Except Unit ProviderMeta)
    (hne : suffix.data ≠ [])
    (hws : suffix.data.getLast?.all (fun c => !c.isWhitespace) = true) :
    fullUserAgent terraformVersion sdkVersion envAppend providerVersion suffix =
      terraformUserAgent terraformVersion sdkVersion envAppend ++
        " terraform-provider-equinix/" ++ providerVersion ++ " " ++ suffix ∧
    terraformUserAgent terraformVersion sdkVersion "" =
      "HashiCorp Terraform/" ++ terraformVersion ++
        " (+https://www.terraform.io) Terraform Plugin SDK/" ++ sdkVersion ∧
    (∀ m, metaGet = .ok m → m.ModuleName ≠ "" →
      generateFwModuleUserAgentString metaGet
          (fullUserAgent terraformVersion sdkVersion envAppend providerVersion suffix) =
        m.ModuleName ++ " " ++
          fullUserAgent terraformVersion sdkVersion envAppend providerVersion suffix) ∧
    (∀ m base, metaGet = .ok m → m.ModuleName = "" →
      generateFwModuleUserAgentString metaGet base = base) ∧
    (∀ u base, metaGet = .error u →
      generateFwModuleUserAgentString metaGet base = base) := by
  have hbig : (terraformUserAgent terraformVersion sdkVersion envAppend ++
      " terraform-provider-equinix/" ++ providerVersion ++ " " ++ suffix).data.head? =
      some 'H' := by
    obtain ⟨t, ht⟩ : ∃ t, (terraformUserAgent terraformVersion sdkVersion envAppend).data =
        'H' :: t := by
      have h := terraformUserAgent_head terraformVersion sdkVersion envAppend
      cases hd : (terraformUserAgent terraformVersion sdkVersion envAppend).data with
      | nil => rw [hd] at h; exact absurd h (by simp)
      | cons a t =>
        rw [hd] at h
        simp only [List.head?_cons, Option.some.injEq] at h
        exact ⟨t, by rw [h]⟩
    simp [string_data_append, ht]
  have hlast : (terraformUserAgent terraformVersion sdkVersion envAppend ++
      " terraform-provider-equinix/" ++ providerVersion ++ " " ++ suffix).data.getLast? =
      suffix.data.getLast? := by
    rw [string_data_append]
    exact List.getLast?_append_of_ne_nil _ hne
  refine ⟨?_, ?_, ?_, ?_, ?_⟩
  · unfold fullUserAgent goTrimSpace
    rw [goTrimList_eq_self]
    · intro c hc
      rw [hbig] at hc
      injection hc with h
      rw [← h]
      decide
    · intro c hc
      rw [hlast] at hc
      rw [hc] at hws
      simp only [Option.all_some] at hws
      simpa using hws
  · simp [terraformUserAgent]
  · intro m hm hne2
    subst hm
    simp [generateFwModuleUserAgentString, hne2]
  · intro m base hm hmo
    subst hm
    simp [generateFwModuleUserAgentString, hmo]
  · intro u base hm
    subst hm
    simp [generateFwModuleUserAgentString]

/-- Witness for C7: the composition evaluated on a concrete version, SDK
version, provider version, suffix and module name. -/
theorem full_user_agent_composition_witness :
    fullUserAgent "1.3.0" "2.31.0" "" "1.14.0" "equinix/ecx-go" =
      terraformUserAgent "1.3.0" "2.31.0" "" ++ " terraform-provider-equinix/" ++
        "1.14.0" ++ " " ++ "equinix/ecx-go" ∧
    generateFwModuleUserAgentString (.ok { ModuleName := "mymodule" })
        (fullUserAgent "1.3.0" "2.31.0" "" "1.14.0" "equinix/ecx-go") =
      "mymodule" ++ " " ++ fullUserAgent "1.3.0" "2.31.0" "" "1.14.0" "equinix/ecx-go" ∧
    generateFwModuleUserAgentString (.ok { ModuleName := "" }) "base" = "base" ∧
    generateFwModuleUserAgentString (.error ()) "base" = "base" := by
  have h := full_user_agent_composition "1.3.0" "2.31.0" "" "1.14.0" "equinix/ecx-go"
    (.ok { ModuleName := "mymodule" }) (by decide) (by decide)
  have h2 := full_user_agent_composition "1.3.0" "2.31.0" "" "1.14.0" "equinix/ecx-go"
    (.ok { ModuleName := "" }) (by decide) (by decide)
  have h3 := full_user_agent_composition "1.3.0" "2.31.0" "" "1.14.0" "equinix/ecx-go"
    (.error ()) (by decide) (by decide)
  exact ⟨h.1, h.2.2.1 _ rfl (by decide), h2.2.2.2.1 _ "base" rfl rfl,
    h3.2.2.2.2 () "base" rfl⟩

/-! ## C8: serviceTokenToFabric -/

theorem serviceTokenToFabricLoop_ok (l : List ServiceTokenInput) :
    ∀ acc, (∀ st ∈ l, st.stType = "" ∨ st.stType = "VC_TOKEN") →
    serviceTokenToFabricLoop acc l = .ok (l.foldl (fun _ st => stConv st) acc) := by
  induction l with
  | nil => intro acc _; rfl
  | cons st rest ih =>
    intro acc h
    have hrest : ∀ x ∈ rest, x.stType = "" ∨ x.stType = "VC_TOKEN" :=
      fun x hx => h x (by simp [hx])
    rw [List.foldl_cons]
    rcases h st (by simp) with h1 | h1
    · rw [show serviceTokenToFabricLoop acc (st :: rest) =
          serviceTokenToFabricLoop { Uuid := st.uuid, Type_ := none } rest by
        simp [serviceTokenToFabricLoop, h1]]
      rw [show stConv st = { Uuid := st.uuid, Type_ := none } by simp [stConv, h1]]
      exact ih _ hrest
    · rw [show serviceTokenToFabricLoop acc (st :: rest) =
          serviceTokenToFabricLoop { Uuid := st.uuid, Type_ := some st.stType } rest by
        simp [serviceTokenToFabricLoop, h1]]
      rw [show stConv st = { Uuid := st.uuid, Type_ := some st.stType } by
        simp [stConv, h1]]
      exact ih _ hrest

theorem serviceTokenToFabricLoop_isOk (l : List ServiceTokenInput) :
    ∀ acc, exceptIsOk (serviceTokenToFabricLoop acc l) = true ↔
      ∀ st ∈ l, st.stType = "" ∨ st.stType = "VC_TOKEN" := by
  induction l with
  | nil => intro acc; simp [serviceTokenToFabricLoop, exceptIsOk]
  | cons st rest ih =>
    intro acc
    by_cases h1 : st.stType = ""
    · rw [show serviceTokenToFabricLoop acc (st :: rest) =
          serviceTokenToFabricLoop { Uuid := st.uuid, Type_ := none } rest by
        simp [serviceTokenToFabricLoop, h1]]
      simp [ih, h1]
    · by_cases h2 : st.stType = "VC_TOKEN"
      · rw [show serviceTokenToFabricLoop acc (st :: rest) =
            serviceTokenToFabricLoop { Uuid := st.uuid, Type_ := some st.stType } rest by
          simp [serviceTokenToFabricLoop, h1, h2]]
        simp [ih, h1, h2]
      · rw [show serviceTokenToFabricLoop acc (st :: rest) =
            .error ("invalid service token type in config. Must be: VC_TOKEN; Received: "
              ++ st.stType) by
          simp [serviceTokenToFabricLoop, h1, h2]]
        simp [exceptIsOk, h1, h2]

theorem foldl_overwrite_getLast (l : List ServiceTokenInput) :
    ∀ acc, l.foldl (fun _ st => stConv st) acc =
      (match l.getLast? with | none => acc | some st => stConv st) := by
  induction l with
  | nil => intro acc; rfl
  | cons a rest ih =>
    intro acc
    cases rest with
    | nil => rfl
    | cons b rs =>
      rw [List.foldl_cons, ih (stConv a)]
      rcases hgl : (b :: rs).getLast? with _ | y
      · rw [List.getLast?_eq_none_iff] at hgl
        exact absurd hgl (by simp)
      · rw [List.getLast?_cons_cons, hgl]

/-- C8: serviceTokenToFabric fails exactly when some element of the input
carries a non-empty type other than VC_TOKEN; on any input whose elements
all have an empty or VC_TOKEN type it succeeds with the service token of
the last element (the empty service token for an empty input), the Type_
field being set exactly when that element's type is non-empty. -/
theorem serviceTokenToFabric_spec (l : List ServiceTokenInput) :
    (exceptIsOk (serviceTokenToFabric l) = false ↔
      ∃ st ∈ l, st.stType ≠ "" ∧ st.stType ≠ "VC_TOKEN") ∧
    ((∀ st ∈ l, st.stType = "" ∨ st.stType = "VC_TOKEN") →
      serviceTokenToFabric l = .ok (lastServiceToken l)) := by
  constructor
  · unfold serviceTokenToFabric
    rw [show (exceptIsOk (serviceTokenToFabricLoop { Uuid := "", Type_ := none } l) = false) ↔
        ¬(exceptIsOk (serviceTokenToFabricLoop { Uuid := "", Type_ := none } l) = true) by
      simp]
    rw [serviceTokenToFabricLoop_isOk l _]
    push_neg
    constructor
    · rintro ⟨st, hmem, hst⟩
      exact ⟨st, hmem, hst⟩
    · rintro ⟨st, hmem, hst⟩
      exact ⟨st, hmem, hst⟩
  · intro h
    unfold serviceTokenToFabric
    rw [serviceTokenToFabricLoop_ok l _ h, foldl_overwrite_getLast]
    rfl

/-- Witness for C8: evaluation on a valid two-element list and on a list
with an invalid type. -/
theorem serviceTokenToFabric_spec_witness :
    serviceTokenToFabric stlGood = .ok { Uuid := "uuid-2", Type_ := some "VC_TOKEN" } ∧
    exceptIsOk (serviceTokenToFabric stlBad) = false := by
  constructor
  · exact (serviceTokenToFabric_spec stlGood).2 (by decide)
  · exact (serviceTokenToFabric_spec stlBad).1.mpr
      ⟨{ stType := "MC_TOKEN", uuid := "uuid-2" }, by decide, by decide, by decide⟩

/-! ## C10: supportedBandwidthsToTerra -/

theorem foldl_append_map_some (l : List Int) :
    ∀ acc : List (Option Int),
      l.foldl (fun acc b => acc ++ [some b]) acc = acc ++ l.map some := by
  induction l with
  | nil => intro acc; simp
  | cons a t ih => intro acc; rw [List.foldl_cons, ih]; simp

/-- C10: supportedBandwidthsToTerra maps a nil pointer to nil and a list of
n bandwidths to a slice of length 2·n whose first n entries are nil (the
pre-allocated slots of make) and whose last n entries are the converted
values in input order (appended after the slots). -/
theorem supportedBandwidthsToTerra_spec (sb : Option (List Int)) :
    (sb = none → supportedBandwidthsToTerra sb = none) ∧
    (∀ l, sb = some l →
      supportedBandwidthsToTerra sb =
        some (List.replicate l.length none ++ l.map some) ∧
      (List.replicate l.length (none : Option Int) ++ l.map some).length = 2 * l.length ∧
      (List.replicate l.length (none : Option Int) ++ l.map some).take l.length =
        List.replicate l.length none ∧
      (List.replicate l.length (none : Option Int) ++ l.map some).drop l.length =
        l.map some) := by
  constructor
  · intro h; subst h; rfl
  · intro l h
    subst h
    refine ⟨?_, ?_, ?_, ?_⟩
    · simp only [supportedBandwidthsToTerra]
      rw [foldl_append_map_some]
    · simp [List.length_append, List.length_replicate, List.length_map, two_mul]
    · exact List.take_left' (by simp)
    · exact List.drop_left' (by simp)

/-- Witness for C10: evaluation on nil and on a concrete two-element
list. -/
theorem supportedBandwidthsToTerra_spec_witness :
    supportedBandwidthsToTerra none = none ∧
    supportedBandwidthsToTerra (some [10, 20]) =
      some (List.replicate 2 (none : Option Int) ++ [(10 : Int), 20].map some) := by
  constructor
  · exact (supportedBandwidthsToTerra_spec none).1 rfl
  · exact ((supportedBandwidthsToTerra_spec (some [10, 20])).2 [10, 20] rfl).1

/-! ## C2: configuration loading -/

/-- Counterexample for C2 as stated: with an empty base URL and no
credential form at all, Load fails with the base-URL error, not with the
documented empty-credentials message, so the absence of credentials alone
does not characterise that failure. -/
theorem config_load_counterexample :
    noCredsEmptyBaseConfig.Token = "" ∧
    noCredsEmptyBaseConfig.ClientID = "" ∧
    noCredsEmptyBaseConfig.ClientSecret = "" ∧
    noCredsEmptyBaseConfig.AuthToken = "" ∧
    Config.Load noCredsEmptyBaseConfig defaultLoadEnv = .error .baseURLEmpty ∧
    Config.Load noCredsEmptyBaseConfig defaultLoadEnv ≠ .error .emptyCredentials ∧
    LoadError.message .baseURLEmpty ≠ emptyCredentialsError := by
  refine ⟨rfl, rfl, rfl, rfl, rfl, ?_, ?_⟩
  · intro h
    have h2 : Config.Load noCredsEmptyBaseConfig defaultLoadEnv = .error .baseURLEmpty := rfl
    rw [h2] at h
    simp at h
  · decide

/-- C2 (amended): when the base URL is non-empty, Load fails with the
documented empty-credentials configuration error exactly when no credential
form is present (the static token empty, the client-id/client-secret pair
incomplete, the auth token empty); the emptyCredentials failure carries the
documented message; and with only the static token set Load succeeds and
populates all per-vendor client handles. -/
theorem config_load_credentials_amended (c : Config) (env : LoadEnv)
    (hbase : c.BaseURL ≠ "") :
    (Config.Load c env = .error .emptyCredentials ↔
      (c.Token = "" ∧ (c.ClientID = "" ∨ c.ClientSecret = "") ∧ c.AuthToken = "")) ∧
    LoadError.message .emptyCredentials = emptyCredentialsError ∧
    (c.Token ≠ "" → c.ClientID = "" → c.ClientSecret = "" → c.AuthToken = "" →
      populatedClients (Config.Load c env) = true) := by
  refine ⟨?_, rfl, ?_⟩
  · unfold Config.Load
    rw [if_neg hbase]
    by_cases hc : c.Token = "" ∧ (c.ClientID = "" ∨ c.ClientSecret = "") ∧ c.AuthToken = ""
    · rw [if_pos hc]
      simp [hc]
    · rw [if_neg hc]
      constructor
      · intro h
        exfalso
        cases hx : c.fabricTokenExchange env with
        | error e => rw [hx] at h; simp at h
        | ok tk => rw [hx] at h; simp at h
      · intro h
        exact absurd h hc
  · intro ht h1 h2 h3
    unfold Config.Load
    rw [if_neg hbase, if_neg (by simp [ht])]
    have hx : c.fabricTokenExchange env = .ok c.FabricAuthToken := by
      unfold Config.fabricTokenExchange
      rw [if_neg (by simp [ht])]
    rw [hx]
    simp [populatedClients]

/-- Witness for C2: the amended statement evaluated on a configuration
carrying only the static token and a non-empty base URL. -/
theorem config_load_credentials_amended_witness :
    populatedClients (Config.Load staticTokenConfig defaultLoadEnv) = true ∧
    (Config.Load staticTokenConfig defaultLoadEnv = .error .emptyCredentials ↔
      (staticTokenConfig.Token = "" ∧ (staticTokenConfig.ClientID = "" ∨
        staticTokenConfig.ClientSecret = "") ∧ staticTokenConfig.AuthToken = "")) := by
  have h := config_load_credentials_amended staticTokenConfig defaultLoadEnv (by decide)
  exact ⟨h.2.2 (by decide) rfl rfl rfl, h.1⟩

/-! ## Poller step lemmas -/

theorem runPoll_deprovisioning_step (fetch : Nat → Except String Observation)
    (r i : String) (fuel tick : Nat) (last : ReservationState)
    (h : hwReservationStateRefresh i (fetch tick) = .deprovisioning) :
    runPoll fetch r i (fuel + 1) tick last =
      runPoll fetch r i fuel (tick + 1) .deprovisioning := by
  simp only [runPoll, h]

theorem runPoll_provisionable_step (fetch : Nat → Except String Observation)
    (r i : String) (fuel tick : Nat) (last : ReservationState)
    (h : hwReservationStateRefresh i (fetch tick) = .provisionable) :
    runPoll fetch r i (fuel + 1) tick last = (.ok (), tick + 1) := by
  simp only [runPoll, h]

theorem runPoll_reprovisioned_step (fetch : Nat → Except String Observation)
    (r i : String) (fuel tick : Nat) (last : ReservationState)
    (h : hwReservationStateRefresh i (fetch tick) = .reprovisioned) :
    runPoll fetch r i (fuel + 1) tick last = (.ok (), tick + 1) := by
  simp only [runPoll, h]

/-! ## C3: id change while not provisionable -/

/-- Counterexample for C3 as stated: on the sequence false(id="A") then
false(id="B") with tracked instance "A" and 20 ticks of patience left, the
poller returns success immediately at the second observation (exactly two
fetches), rather than continuing to poll. -/
theorem poll_reprovisioned_counterexample :
    waitUntilReservationProvisionable fetchChangedId "reservationId" "A" 20 = .ok () ∧
    runPoll fetchChangedId "reservationId" "A" 20 0 .deprovisioning = (.ok (), 2) := by
  constructor <;> rfl

/-- C3 (amended): when the condition is still false but the observed device
id changes to a non-empty value different from the tracked instance id, the
poller does not fail or time out at that tick: it treats the reservation
as reprovisioned and returns success immediately at that observation. -/
theorem poll_reprovisioned_amended (fetch : Nat → Except String Observation)
    (reservationId instanceId d : String) (maxTicks : Nat)
    (h0 : fetch 0 = .ok { deviceId := some instanceId, provisionable := false })
    (h1 : fetch 1 = .ok { deviceId := some d, provisionable := false })
    (hd : d ≠ "") (hdi : d ≠ instanceId) (hfuel : 2 ≤ maxTicks) :
    runPoll fetch reservationId instanceId maxTicks 0 .deprovisioning = (.ok (), 2) := by
  obtain ⟨m, rfl⟩ : ∃ m, maxTicks = m + 2 := ⟨maxTicks - 2, by omega⟩
  have hc0 : hwReservationStateRefresh instanceId (fetch 0) = .deprovisioning := by
    rw [h0]; simp [hwReservationStateRefresh]
  have hc1 : hwReservationStateRefresh instanceId (fetch 1) = .reprovisioned := by
    rw [h1]; simp [hwReservationStateRefresh, hd, hdi]
  have e1 : runPoll fetch reservationId instanceId (m + 1 + 1) 0 .deprovisioning =
      runPoll fetch reservationId instanceId (m + 1) 1 .deprovisioning :=
    runPoll_deprovisioning_step fetch reservationId instanceId (m + 1) 0 .deprovisioning hc0
  have e2 : runPoll fetch reservationId instanceId (m + 1) 1 .deprovisioning = (.ok (), 2) :=
    runPoll_reprovisioned_step fetch reservationId instanceId m 1 .deprovisioning hc1
  rw [show m + 2 = m + 1 + 1 from rfl, e1, e2]

/-- Witness for C3: the amended statement evaluated on the reprovisioned
sequence of the repository's test. -/
theorem poll_reprovisioned_amended_witness :
    runPoll fetchReprovisionedTest "reservationId" "instanceId" 20 0 .deprovisioning =
      (.ok (), 2) :=
  poll_reprovisioned_amended fetchReprovisionedTest "reservationId" "instanceId"
    "new instance id" 20 rfl rfl (by decide) (by decide) (by decide)

/-! ## C4: timeout when never provisionable -/

theorem runPoll_timeout (fetch : Nat → Except String Observation)
    (reservationId instanceId : String) :
    ∀ fuel tick,
      (∀ t, tick ≤ t → t < tick + fuel →
        hwReservationStateRefresh instanceId (fetch t) = .deprovisioning) →
      runPoll fetch reservationId instanceId fuel tick .deprovisioning =
        (.error (.timeout reservationId .deprovisioning), tick + fuel) := by
  intro fuel
  induction fuel with
  | zero => intro tick _; rfl
  | succ n ih =>
    intro tick h
    rw [runPoll_deprovisioning_step fetch reservationId instanceId n tick .deprovisioning
      (h tick (le_refl tick) (by omega))]
    rw [ih (tick + 1) (fun t ht1 ht2 => h t (by omega) (by omega))]
    have har : tick + 1 + n = tick + (n + 1) := by omega
    rw [har]

/-- Counterexample for C4 as stated: on the claim's concrete scenario — the
status sequence [false(id=X), false(id=Y)] repeated, with a 1s deadline and
50ms interval (20 ticks) and tracked instance X — the poller returns
success at the second observation (a reprovision), not a timeout error. -/
theorem poll_timeout_counterexample :
    waitUntilReservationProvisionable fetchAlternatingIds "reservationId" "X" 20 =
      .ok () := by
  rfl

/-- C4 (amended): on every input where, before the deadline, each fetch
succeeds, never reports the terminal condition and never reports a
non-empty device id different from the tracked instance (so no tick is a
terminal reprovision either), the poller returns the timeout error naming
the reservation identifier and the last observed state instead of
succeeding or polling further. -/
theorem poll_timeout_amended (fetch : Nat → Except String Observation)
    (reservationId instanceId : String) (maxTicks : Nat)
    (h : ∀ t, t < maxTicks → ∃ obs, fetch t = .ok obs ∧ obs.provisionable = false ∧
      (∀ dv, obs.deviceId = some dv → dv = "" ∨ dv = instanceId)) :
    waitUntilReservationProvisionable fetch reservationId instanceId maxTicks =
      .error (.timeout reservationId .deprovisioning) := by
  have hcls : ∀ t, 0 ≤ t → t < 0 + maxTicks →
      hwReservationStateRefresh instanceId (fetch t) = .deprovisioning := by
    intro t ht1 ht2
    obtain ⟨obs, hf, hp, hdev⟩ := h t (by omega)
    rw [hf]
    cases hdid : obs.deviceId with
    | none => simp [hwReservationStateRefresh, hdid, hp]
    | some dv =>
      rcases hdev dv hdid with h3 | h3
      · subst h3; simp [hwReservationStateRefresh, hdid, hp]
      · subst h3; simp [hwReservationStateRefresh, hdid, hp]
  unfold waitUntilReservationProvisionable
  rw [runPoll_timeout fetch reservationId instanceId maxTicks 0 hcls]

/-- Witness for C4: the amended statement evaluated on the
foreverDeprovisioning sequence of the repository's test (no device, never
provisionable), with a 20-tick deadline. -/
theorem poll_timeout_amended_witness :
    waitUntilReservationProvisionable fetchNoDevice "reservationId" "instanceId" 20 =
      .error (.timeout "reservationId" .deprovisioning) :=
  poll_timeout_amended fetchNoDevice "reservationId" "instanceId" 20
    (fun t ht => ⟨{ deviceId := none, provisionable := false }, rfl, rfl,
      fun dv hdv => Option.noConfusion hdv⟩)

/-! ## C5: immediate success when provisionable -/

/-- C5: whenever the first observation reports the terminal condition
(provisionable true) the poller succeeds after that single fetch; and on
the concrete sequence false(id=instance) then true(no device id) it
succeeds after exactly those two fetches — no further polling ticks, hence
within at most one stabilization re-check. -/
theorem poll_provisionable_success (fetch : Nat → Except String Observation)
    (reservationId instanceId : String) (maxTicks : Nat) :
    (∀ obs, fetch 0 = .ok obs → obs.provisionable = true → 1 ≤ maxTicks →
      runPoll fetch reservationId instanceId maxTicks 0 .deprovisioning = (.ok (), 1)) ∧
    (fetch 0 = .ok { deviceId := some instanceId, provisionable := false } →
      fetch 1 = .ok { deviceId := none, provisionable := true } → 2 ≤ maxTicks →
      runPoll fetch reservationId instanceId maxTicks 0 .deprovisioning = (.ok (), 2)) := by
  constructor
  · intro obs hf hp hm
    obtain ⟨m, rfl⟩ : ∃ m, maxTicks = m + 1 := ⟨maxTicks - 1, by omega⟩
    have hcls : hwReservationStateRefresh instanceId (fetch 0) = .provisionable ∨
        hwReservationStateRefresh instanceId (fetch 0) = .reprovisioned := by
      rw [hf]
      cases hdid : obs.deviceId with
      | none => left; simp [hwReservationStateRefresh, hdid, hp]
      | some dv =>
        by_cases hc : dv ≠ "" ∧ dv ≠ instanceId
        · right; simp [hwReservationStateRefresh, hdid, hc]
        · left; simp [hwReservationStateRefresh, hdid, hc, hp]
    rcases hcls with hcls | hcls
    · exact runPoll_provisionable_step fetch reservationId instanceId m 0 .deprovisioning hcls
    · exact runPoll_reprovisioned_step fetch reservationId instanceId m 0 .deprovisioning hcls
  · intro h0 h1 hm
    obtain ⟨m, rfl⟩ : ∃ m, maxTicks = m + 2 := ⟨maxTicks - 2, by omega⟩
    have hc0 : hwReservationStateRefresh instanceId (fetch 0) = .deprovisioning := by
      rw [h0]; simp [hwReservationStateRefresh]
    have hc1 : hwReservationStateRefresh instanceId (fetch 1) = .provisionable := by
      rw [h1]; simp [hwReservationStateRefresh]
    have e1 : runPoll fetch reservationId instanceId (m + 1 + 1) 0 .deprovisioning =
        runPoll fetch reservationId instanceId (m + 1) 1 .deprovisioning :=
      runPoll_deprovisioning_step fetch reservationId instanceId (m + 1) 0
        .deprovisioning hc0
    have e2 : runPoll fetch reservationId instanceId (m + 1) 1 .deprovisioning =
        (.ok (), 2) :=
      runPoll_provisionable_step fetch reservationId instanceId m 1 .deprovisioning hc1
    rw [show m + 2 = m + 1 + 1 from rfl, e1, e2]

/-- Witness for C5: evaluation on an immediately-provisionable sequence and
on the provisionable sequence of the repository's test. -/
theorem poll_provisionable_success_witness :
    runPoll fetchTrueNow "reservationId" "instanceId" 20 0 .deprovisioning = (.ok (), 1) ∧
    runPoll fetchProvisionableTest "reservationId" "instanceId" 20 0 .deprovisioning =
      (.ok (), 2) := by
  constructor
  · exact (poll_provisionable_success fetchTrueNow "reservationId" "instanceId" 20).1
      { deviceId := none, provisionable := true } rfl rfl (by omega)
  · exact (poll_provisionable_success fetchProvisionableTest "reservationId"
      "instanceId" 20).2 rfl rfl (by omega)

/-! ## C6: Read and not-found errors -/

/-- C6: on Read, a vendor API error classified as not-found produces
exactly one warning diagnostic (so no error diagnostic) and removes the
resource from local state; every other vendor API error is surfaced as an
error diagnostic heading the diagnostic list, and the state is not
removed. -/
theorem read_not_found_behavior (stateGet : Except Diagnostic SSHKeyModel)
    (state : SSHKeyModel) (find : String → Except ApiError SSHKeyModel)
    (parse : Option SSHKeyModel → SSHKeyModel × List Diagnostic) (e : ApiError)
    (hs : stateGet = .ok state) (hf : find state.id = .error e) :
    (e.notFound = true →
      Resource.Read stateGet find parse =
        { diagnostics := [⟨.warning, "Equinix Metal Project SSHKey not found during refresh",
            "[WARN] SSHKey (" ++ state.id ++ ") not found, removing from state"⟩]
          stateRemoved := true
          stateSet := none } ∧
      diagnosticsHasError (Resource.Read stateGet find parse).diagnostics = false) ∧
    (e.notFound = false →
      (Resource.Read stateGet find parse).stateRemoved = false ∧
      (Resource.Read stateGet find parse).diagnostics.head? =
        some ⟨.error, "Failed to get Project SSHKey " ++ state.id, e.message⟩ ∧
      diagnosticsHasError (Resource.Read stateGet find parse).diagnostics = true) := by
  subst hs
  constructor
  · intro hnf
    have hr : Resource.Read (.ok state) find parse =
        { diagnostics := [⟨.warning, "Equinix Metal Project SSHKey not found during refresh",
            "[WARN] SSHKey (" ++ state.id ++ ") not found, removing from state"⟩]
          stateRemoved := true
          stateSet := none } := by
      simp [Resource.Read, hf, hnf]
    refine ⟨hr, ?_⟩
    rw [hr]
    simp [diagnosticsHasError]
  · intro hnf
    have hr : Resource.Read (.ok state) find parse =
        { diagnostics := ⟨.error, "Failed to get Project SSHKey " ++ state.id, e.message⟩ ::
            (parse none).2
          stateRemoved := false
          stateSet := none } := by
      simp [Resource.Read, hf, hnf]
    rw [hr]
    refine ⟨rfl, rfl, ?_⟩
    simp [diagnosticsHasError]

/-- Witness for C6: Read evaluated against a not-found failure and against
a server failure. -/
theorem read_not_found_behavior_witness :
    Resource.Read (.ok sshKey0) findNotFound parseTrivial =
      { diagnostics := [⟨.warning, "Equinix Metal Project SSHKey not found during refresh",
          "[WARN] SSHKey (" ++ sshKey0.id ++ ") not found, removing from state"⟩]
        stateRemoved := true
        stateSet := none } ∧
    (Resource.Read (.ok sshKey0) findServerError parseTrivial).stateRemoved = false ∧
    diagnosticsHasError
      (Resource.Read (.ok sshKey0) findServerError parseTrivial).diagnostics = true := by
  have h1 := read_not_found_behavior (.ok sshKey0) sshKey0 findNotFound parseTrivial
    { notFound := true, message := "Error 404 not found" } rfl rfl
  have h2 := read_not_found_behavior (.ok sshKey0) sshKey0 findServerError parseTrivial
    { notFound := false, message := "Error 500 internal error" } rfl rfl
  exact ⟨(h1.1 rfl).1, (h2.2 rfl).1, (h2.2 rfl).2.2⟩

/-! ## C9: Delete and ignored HTTP statuses -/

/-- C9: on Delete, a vendor API failure whose HTTP response carries status
403 or 404 produces no diagnostics at all (the deletion completes as
success); a failure whose response carries any other status (or no
response) is surfaced as a single error diagnostic naming the key id. -/
theorem delete_ignores_forbidden_notfound (stateGet : Except Diagnostic SSHKeyModel)
    (state : SSHKeyModel) (deleteCall : String → Option HttpResponse × Option ApiError)
    (hs : stateGet = .ok state) :
    (∀ resp errv, deleteCall state.id = (some resp, errv) →
      resp.statusCode = 403 ∨ resp.statusCode = 404 →
      Resource.Delete stateGet deleteCall = { diagnostics := [] }) ∧
    (∀ e, (deleteCall state.id).2 = some e →
      (∀ resp, (deleteCall state.id).1 = some resp →
        resp.statusCode ≠ 403 ∧ resp.statusCode ≠ 404) →
      Resource.Delete stateGet deleteCall =
        { diagnostics := [⟨.error, "Failed to delete Project SSHKey " ++ state.id,
            e.message⟩] }) := by
  subst hs
  constructor
  · intro resp errv hcall hstatus
    rcases hstatus with h | h
    · simp [Resource.Delete, hcall, IgnoreHttpResponseErrors, HttpForbidden,
        HttpNotFound, h]
    · simp [Resource.Delete, hcall, IgnoreHttpResponseErrors, HttpForbidden,
        HttpNotFound, h]
  · intro e he hstatus
    cases hr : (deleteCall state.id).1 with
    | none =>
      simp [Resource.Delete, IgnoreHttpResponseErrors, HttpForbidden, HttpNotFound,
        hr, he]
    | some resp =>
      obtain ⟨hn1, hn2⟩ := hstatus resp hr
      simp [Resource.Delete, IgnoreHttpResponseErrors, HttpForbidden, HttpNotFound,
        hr, he, hn1, hn2]

/-- Witness for C9: Delete evaluated against failures with statuses 403,
404 and 500. -/
theorem delete_ignores_forbidden_notfound_witness :
    Resource.Delete (.ok sshKey0) deleteCall403 = { diagnostics := [] } ∧
    Resource.Delete (.ok sshKey0) deleteCall404 = { diagnostics := [] } ∧
    Resource.Delete (.ok sshKey0) deleteCall500 =
      { diagnostics := [⟨.error, "Failed to delete Project SSHKey " ++ sshKey0.id,
          "server error"⟩] } := by
  have h403 := delete_ignores_forbidden_notfound (.ok sshKey0) sshKey0 deleteCall403 rfl
  have h404 := delete_ignores_forbidden_notfound (.ok sshKey0) sshKey0 deleteCall404 rfl
  have h500 := delete_ignores_forbidden_notfound (.ok sshKey0) sshKey0 deleteCall500 rfl
  refine ⟨h403.1 { statusCode := 403 } (some { notFound := false, message := "forbidden" })
      rfl (Or.inl rfl),
    h404.1 { statusCode := 404 } (some { notFound := true, message := "not found" })
      rfl (Or.inr rfl),
    h500.2 { notFound := false, message := "server error" } rfl ?_⟩
  intro resp hresp
  have hv : (deleteCall500 sshKey0.id).1 = some { statusCode := 500 } := rfl
  rw [hv] at hresp
  injection hresp with h5
  rw [← h5]
  exact ⟨by decide, by decide⟩
